import Mathlib

/-
Verification development for the RecruiterAI client core: the permission
store (PermissionContext), the live-update channel (useWebSocket hook and
its page subscribers), and the REST client interceptors.

Each definition is a shallow embedding of the corresponding JavaScript in
the repository; the source location is named in its doc comment.
-/

/-- JavaScript values that can appear in the permissions payload. The
strict-equality test `=== true` in the source distinguishes the boolean
true from every other value, so the embedding keeps the value kind. -/
inductive JVal where
  | jnull
  | jbool (b : Bool)
  | jnum (n : Int)
  | jstr (s : String)
deriving DecidableEq

/-- A JavaScript object mapping action names to values, as delivered by
GET /api/users/me/permissions in the field data.permissions. -/
abbrev CapabilitySet := List (String × JVal)

/-- Property lookup permissions[action]: the value at the key, if present.
A JavaScript object has at most one binding per key; the embedding takes
the first binding. -/
def capLookup (m : CapabilitySet) (action : String) : Option JVal :=
  match m with
  | [] => none
  | (k, v) :: rest => if k = action then some v else capLookup rest action

/-- The React state of PermissionProvider (PermissionContext source,
lines 15-17): permissions (initially null), role (initially null),
loading (initially true). Option models the JavaScript null. -/
structure PermStore where
  permissions : Option CapabilitySet
  role : Option String
  loading : Bool
deriving DecidableEq

/-- The state produced by useState initializers: permissions = null,
role = null, loading = true. -/
def initialPermStore : PermStore :=
  { permissions := none, role := none, loading := true }

/-- hasPermission (PermissionContext source, lines 42-45):
if (!permissions) return false; return permissions[action] === true. -/
def hasPermission (s : PermStore) (action : String) : Bool :=
  match s.permissions with
  | none => false
  | some m => decide (capLookup m action = some (JVal.jbool true))

/-- hasAnyPermission (lines 47-49): actions.some(a => hasPermission(a)).
Array.prototype.some is a short-circuiting OR, as is List.any. -/
def hasAnyPermission (s : PermStore) (actions : List String) : Bool :=
  actions.any (fun a => hasPermission s a)

/-- hasAllPermissions (lines 51-53): actions.every(a => hasPermission(a)).
Array.prototype.every is a short-circuiting AND, as is List.all. -/
def hasAllPermissions (s : PermStore) (actions : List String) : Bool :=
  actions.all (fun a => hasPermission s a)

/-- isAdmin (line 55): role === "admin". The initial null role is not
equal to "admin". -/
def isAdmin (s : PermStore) : Bool :=
  decide (s.role = some "admin")

/-- The synchronous writes loadPermissions (lines 19-36) performs between
being invoked and its fetch resolving. With a token present the function
reaches the await with no state writes at all: it never calls
setLoading(true) and never clears permissions or role. With no token it
calls setLoading(false) and returns. refreshPermissions (line 69) is this
same function. -/
def loadPermissionsPending (s : PermStore) (tokenPresent : Bool) : PermStore :=
  if tokenPresent then s else { s with loading := false }

/-- How the permissions fetch can end, for a run that had a token. -/
inductive FetchOutcome where
  | success (permissions : Option CapabilitySet) (role : Option String)
  | failure
deriving DecidableEq

/-- State after the fetch of loadPermissions resolves (lines 27-35). On
success it stores data.permissions and data.role; on any failure the catch
block only logs, leaving permissions and role untouched; the finally block
sets loading to false in both cases. -/
def loadPermissionsResolve (s : PermStore) (o : FetchOutcome) : PermStore :=
  match o with
  | .success p r => { permissions := p, role := r, loading := false }
  | .failure => { s with loading := false }

/-- What the component returned by withPermission (PermissionContext
source, lines 80-103) renders. -/
inductive Rendered where
  | loadingPlaceholder
  | accessDenied
  | page
deriving DecidableEq

/-- withPermission render logic (lines 84-101): while loading, the fixed
"Loading..." placeholder; else if the required permission is not held, the
fixed "Access Denied" view; else the wrapped page. -/
def withPermission (s : PermStore) (requiredPermission : String) : Rendered :=
  if s.loading then Rendered.loadingPlaceholder
  else if !(hasPermission s requiredPermission) then Rendered.accessDenied
  else Rendered.page

/-- usePermissions (PermissionContext source, lines 6-12): useContext
returns the provider value, or the default (undefined, modelled none) when
no PermissionProvider is above the caller; a falsy context makes the hook
throw an Error instead of returning any store. -/
def usePermissions (context : Option PermStore) : Except String PermStore :=
  match context with
  | none => Except.error "usePermissions must be used within PermissionProvider"
  | some c => Except.ok c

/-- A JSON text frame delivered on the live channel: the type tag plus the
one ad hoc identifier field the modelled subscribers read. -/
structure Frame where
  type : String
  batch_id : Option Nat
deriving DecidableEq

/-- Per-hook-instance state of useWebSocket (App.jsx hook source, lines
83-85), plus a count of setLastMessage calls to state multiplicity. -/
structure WsHookState where
  isConnected : Bool
  lastMessage : Option Frame
  lastMessageUpdates : Nat
deriving DecidableEq

/-- Hook state produced by the useState initializers: not connected, no
message yet. -/
def wsInitial : WsHookState :=
  { isConnected := false, lastMessage := none, lastMessageUpdates := 0 }

/-- The onmessage handler (hook source, lines 103-107): parse the frame
and call setLastMessage(data) exactly once per received frame. -/
def onMessage (s : WsHookState) (frame : Frame) : WsHookState :=
  { s with lastMessage := some frame
         , lastMessageUpdates := s.lastMessageUpdates + 1 }

/-- The re-fetch calls the modelled subscribers can issue from their
lastMessage effects. -/
inductive FetchCall where
  | loadBatches
  | loadPotentials (batchId : Nat)
  | loadActivities (batchId : Nat)
  | loadJobs
deriving DecidableEq

/-- ScreeningPage lastMessage effect (page source): on potential_promoted
or potential_rejected with a selected batch, re-fetch its potentials and
activities; on the four batch lifecycle types, re-fetch the batch list,
and with a selected batch also its potentials unless the frame is
batch_deleted for that very batch (which instead clears the selection, a
state write and not a fetch). -/
def screeningLastMessageEffect (lastMessage : Option Frame) (selectedBatch : Option Nat) :
    List FetchCall :=
  match lastMessage with
  | none => []
  | some m =>
    (if m.type = "potential_promoted" ∨ m.type = "potential_rejected" then
      match selectedBatch with
      | some b => [FetchCall.loadPotentials b, FetchCall.loadActivities b]
      | none => []
    else [])
    ++
    (if m.type = "batch_paused" ∨ m.type = "batch_resumed" ∨
        m.type = "batch_cancelled" ∨ m.type = "batch_deleted" then
      FetchCall.loadBatches ::
        (match selectedBatch with
         | some b =>
           if m.type = "batch_deleted" ∧ m.batch_id = some b then []
           else [FetchCall.loadPotentials b]
         | none => [])
    else [])

/-- JobsPage lastMessage effect (page source): re-fetch the job list
exactly when the frame type is job_created. -/
def jobsLastMessageEffect (lastMessage : Option Frame) : List FetchCall :=
  match lastMessage with
  | none => []
  | some m => if m.type = "job_created" then [FetchCall.loadJobs] else []

/-- The frame types ScreeningPage reacts to. -/
def screeningKnownTypes : List String :=
  ["potential_promoted", "potential_rejected",
   "batch_paused", "batch_resumed", "batch_cancelled", "batch_deleted"]

/-- WebSocket constructor invocations performed by the mount effect of one
useWebSocket hook instance (hook source, lines 87-123): the effect body
runs new WebSocket(...) exactly once, and the empty dependency array makes
it run once per mounted component instance. -/
def useWebSocketConnectionsPerInstance : Nat := 1

/-- Connections opened by a set of simultaneously mounted views that each
call useWebSocket. The hook keeps all of its state in per-instance
useState cells; the source has no module-level or context-shared socket,
so every mounted subscriber owns its own connection. -/
def openConnections (mountedSubscribers : List String) : Nat :=
  mountedSubscribers.length * useWebSocketConnectionsPerInstance

/-- Browser localStorage slots the REST client touches. -/
structure Storage where
  token : Option String
  user : Option String
deriving DecidableEq

/-- The one request field the interceptor writes: the Authorization
header. -/
structure RequestConfig where
  authorization : Option String
deriving DecidableEq

/-- The api request interceptor (services/api source, lines 11-17): read
localStorage token; when present, set the Authorization header to
"Bearer " plus the token; return the config. -/
def apiRequestInterceptor (st : Storage) (config : RequestConfig) : RequestConfig :=
  match st.token with
  | some t => { config with authorization := some ("Bearer " ++ t) }
  | none => config

/-- Combined browser effects of the response error interceptor. -/
structure ClientEffects where
  storage : Storage
  redirectedTo : Option String
deriving DecidableEq

/-- The api response error interceptor (services/api source, lines 20-30):
a status of 401 (status none models an error with no response) removes the
token and user entries from localStorage and sets window.location.href to
"/login"; any other error leaves both untouched. -/
def apiResponseErrorInterceptor (st : Storage) (status : Option Nat) : ClientEffects :=
  if status = some 401 then
    { storage := { token := none, user := none }, redirectedTo := some "/login" }
  else
    { storage := st, redirectedTo := none }

/-- A READY store holding the capability set of the spec example:
view_candidates granted, manage_users denied. -/
def exampleStore : PermStore :=
  { permissions := some [("view_candidates", JVal.jbool true),
                         ("manage_users", JVal.jbool false)]
  , role := some "recruiter"
  , loading := false }

/-- A READY store in which view_candidates was granted by a successful
load. -/
def readyGrantedStore : PermStore :=
  { permissions := some [("view_candidates", JVal.jbool true)]
  , role := some "recruiter"
  , loading := false }

/-- A READY store from a successful load as an admin. -/
def readyAdminStore : PermStore :=
  { permissions := some [("manage_users", JVal.jbool true)]
  , role := some "admin"
  , loading := false }


/-- C1 counterexample: from the READY store readyGrantedStore, invoking
refreshPermissions with a token present leaves loading false (the store is
not in LOADING) and hasPermission still returns true for the previously
granted action, before the fetch resolves — both parts of the claim fail. -/
theorem refresh_pending_not_loading_cex :
    readyGrantedStore.loading = false
    ∧ hasPermission readyGrantedStore "view_candidates" = true
    ∧ ¬ ((loadPermissionsPending readyGrantedStore true).loading = true)
    ∧ ¬ (hasPermission (loadPermissionsPending readyGrantedStore true) "view_candidates" = false) := by
  refine ⟨rfl, by decide, by decide, by decide⟩

/-- C1 amended: after refreshPermissions is invoked from a READY state and
before the fetch resolves, the store stays READY — loading remains false
and hasPermission returns exactly what it returned before, for every
action (loadPermissions never calls setLoading(true) and never clears the
capability set). -/
theorem refresh_pending_keeps_ready (s : PermStore) (tokenPresent : Bool)
    (h : s.loading = false) :
    (loadPermissionsPending s tokenPresent).loading = false
    ∧ ∀ a : String,
        hasPermission (loadPermissionsPending s tokenPresent) a = hasPermission s a := by
  constructor
  · cases tokenPresent <;> simp [loadPermissionsPending, h]
  · intro a
    cases tokenPresent <;> simp [loadPermissionsPending, hasPermission]

/-- C1 witness: the amended theorem applied to readyGrantedStore with a
token present, instantiated at the granted action. -/
theorem refresh_pending_keeps_ready_wit :
    (loadPermissionsPending readyGrantedStore true).loading = false
    ∧ hasPermission (loadPermissionsPending readyGrantedStore true) "view_candidates"
        = hasPermission readyGrantedStore "view_candidates" :=
  ⟨(refresh_pending_keeps_ready readyGrantedStore true rfl).1,
   (refresh_pending_keeps_ready readyGrantedStore true rfl).2 "view_candidates"⟩

/-- C2 counterexample: from the READY admin store readyAdminStore, a
failed fetch still reaches loading = false, but the capability set is not
empty and isAdmin is still true — the prior role and capabilities from the
earlier successful load are retained, contrary to the claim. -/
theorem fetch_failure_keeps_prior_cex :
    (loadPermissionsResolve readyAdminStore FetchOutcome.failure).loading = false
    ∧ (loadPermissionsResolve readyAdminStore FetchOutcome.failure).permissions
        = some [("manage_users", JVal.jbool true)]
    ∧ ¬ (isAdmin (loadPermissionsResolve readyAdminStore FetchOutcome.failure) = false)
    ∧ hasPermission (loadPermissionsResolve readyAdminStore FetchOutcome.failure)
        "manage_users" = true := by
  refine ⟨rfl, rfl, by decide, by decide⟩

/-- C2 amended: on fetch failure the store reaches loading = false but
retains its previous permissions and role unchanged; only when no
successful load has happened (permissions and role still null) does the
failed load leave every permission denied and isAdmin false. -/
theorem fetch_failure_retains_state (s : PermStore) :
    (loadPermissionsResolve s FetchOutcome.failure).loading = false
    ∧ (loadPermissionsResolve s FetchOutcome.failure).permissions = s.permissions
    ∧ (loadPermissionsResolve s FetchOutcome.failure).role = s.role
    ∧ (s.permissions = none →
        ∀ a : String, hasPermission (loadPermissionsResolve s FetchOutcome.failure) a = false)
    ∧ (s.role = none → isAdmin (loadPermissionsResolve s FetchOutcome.failure) = false) := by
  refine ⟨rfl, rfl, rfl, ?_, ?_⟩
  · intro h a
    simp [loadPermissionsResolve, hasPermission, h]
  · intro h
    simp [loadPermissionsResolve, isAdmin, h]

/-- C2 witness: the amended theorem applied to the initial store, whose
permissions and role are null, instantiated at manage_users. -/
theorem fetch_failure_retains_state_wit :
    (loadPermissionsResolve initialPermStore FetchOutcome.failure).loading = false
    ∧ hasPermission (loadPermissionsResolve initialPermStore FetchOutcome.failure)
        "manage_users" = false
    ∧ isAdmin (loadPermissionsResolve initialPermStore FetchOutcome.failure) = false :=
  ⟨(fetch_failure_retains_state initialPermStore).1,
   (fetch_failure_retains_state initialPermStore).2.2.2.1 rfl "manage_users",
   (fetch_failure_retains_state initialPermStore).2.2.2.2 rfl⟩

/-- C3 counterexample: mounting a second view that calls useWebSocket
opens a second connection — two mounted subscribers hold two connections,
not one shared connection. -/
theorem second_subscriber_opens_connection_cex :
    openConnections ["ScreeningPage", "JobsPage"] = 2
    ∧ ¬ (openConnections ["ScreeningPage", "JobsPage"] = 1)
    ∧ openConnections ["ScreeningPage", "JobsPage"]
        = openConnections ["ScreeningPage"] + 1 := by
  refine ⟨rfl, by decide, rfl⟩

/-- C3 amended: each mounted view that calls useWebSocket opens its own
socket connection, so a session with n mounted subscribing views holds n
connections; the connection is per-view state, not shared across
subscribers. -/
theorem connections_per_subscriber (mountedSubscribers : List String) :
    openConnections mountedSubscribers = mountedSubscribers.length := by
  simp [openConnections, useWebSocketConnectionsPerInstance]

/-- C4: hasPermission returns false when the capability set is null, when
the key is absent from the loaded set, and when the key maps to any value
other than the boolean true; it returns true exactly when the loaded set
maps the key to the boolean true. -/
theorem hasPermission_characterization (s : PermStore) (a : String) :
    (s.permissions = none → hasPermission s a = false)
    ∧ (∀ m : CapabilitySet, s.permissions = some m → capLookup m a = none →
        hasPermission s a = false)
    ∧ (∀ (m : CapabilitySet) (v : JVal), s.permissions = some m → capLookup m a = some v →
        v ≠ JVal.jbool true → hasPermission s a = false)
    ∧ (hasPermission s a = true ↔
        ∃ m : CapabilitySet, s.permissions = some m
          ∧ capLookup m a = some (JVal.jbool true)) := by
  refine ⟨?_, ?_, ?_, ?_⟩
  · intro h
    simp [hasPermission, h]
  · intro m hm hk
    simp [hasPermission, hm, hk]
  · intro m v hm hk hv
    simp [hasPermission, hm, hk, hv]
  · constructor
    · intro h
      rcases hp : s.permissions with _ | m
      · rw [hasPermission, hp] at h
        exact absurd h (by simp)
      · refine ⟨m, rfl, ?_⟩
        rw [hasPermission, hp] at h
        exact of_decide_eq_true h
    · rintro ⟨m, hm, hk⟩
      simp [hasPermission, hm, hk]

/-- C4 witness: the characterization applied to exampleStore at the key
view_candidates (present and true there), discharging the first implication
at initialPermStore and the absent-key and non-true-value implications at
exampleStore. -/
theorem hasPermission_characterization_wit :
    hasPermission initialPermStore "view_candidates" = false
    ∧ hasPermission exampleStore "delete_everything" = false
    ∧ hasPermission exampleStore "manage_users" = false
    ∧ hasPermission exampleStore "view_candidates" = true :=
  ⟨(hasPermission_characterization initialPermStore "view_candidates").1 rfl,
   (hasPermission_characterization exampleStore "delete_everything").2.1
     [("view_candidates", JVal.jbool true), ("manage_users", JVal.jbool false)]
     rfl (by decide),
   (hasPermission_characterization exampleStore "manage_users").2.2.1
     [("view_candidates", JVal.jbool true), ("manage_users", JVal.jbool false)]
     (JVal.jbool false) rfl (by decide) (by decide),
   ((hasPermission_characterization exampleStore "view_candidates").2.2.2).2
     ⟨[("view_candidates", JVal.jbool true), ("manage_users", JVal.jbool false)],
      rfl, by decide⟩⟩

/-- C5: after connect, the inbound frame with type batch_paused and
batch_id 7 calls setLastMessage exactly once and makes the freshly mounted
ScreeningPage subscriber (no batch selected yet) issue exactly one
re-fetch; any frame also updates lastMessage exactly once, and a frame
whose type is unrecognized triggers no re-fetch in JobsPage (which reacts
only to job_created) nor in ScreeningPage for any selected batch. -/
theorem live_channel_frame_behavior (s : WsHookState) (g : Frame) :
    (onMessage s { type := "batch_paused", batch_id := some 7 }).lastMessage
      = some { type := "batch_paused", batch_id := some 7 }
    ∧ (onMessage s { type := "batch_paused", batch_id := some 7 }).lastMessageUpdates
      = s.lastMessageUpdates + 1
    ∧ screeningLastMessageEffect (some { type := "batch_paused", batch_id := some 7 }) none
      = [FetchCall.loadBatches]
    ∧ jobsLastMessageEffect (some { type := "batch_paused", batch_id := some 7 }) = []
    ∧ (onMessage s g).lastMessageUpdates = s.lastMessageUpdates + 1
    ∧ (g.type ≠ "job_created" → jobsLastMessageEffect (some g) = [])
    ∧ (g.type ∉ screeningKnownTypes →
        ∀ b : Option Nat, screeningLastMessageEffect (some g) b = []) := by
  refine ⟨rfl, rfl, by decide, by decide, rfl, ?_, ?_⟩
  · intro h
    simp [jobsLastMessageEffect, h]
  · intro h b
    simp only [screeningKnownTypes, List.mem_cons, List.not_mem_nil, or_false,
      not_or] at h
    obtain ⟨h1, h2, h3, h4, h5, h6⟩ := h
    simp [screeningLastMessageEffect, h1, h2, h3, h4, h5, h6]

/-- C5 witness: the theorem applied to the initial hook state and the
unrecognized frame type mystery_event, instantiated at a selected batch
of 3. -/
theorem live_channel_frame_behavior_wit :
    (onMessage wsInitial { type := "batch_paused", batch_id := some 7 }).lastMessageUpdates
      = wsInitial.lastMessageUpdates + 1
    ∧ jobsLastMessageEffect (some { type := "mystery_event", batch_id := none }) = []
    ∧ screeningLastMessageEffect (some { type := "mystery_event", batch_id := none })
        (some 3) = [] :=
  ⟨(live_channel_frame_behavior wsInitial { type := "mystery_event", batch_id := none }).2.1,
   (live_channel_frame_behavior wsInitial
      { type := "mystery_event", batch_id := none }).2.2.2.2.2.1 (by decide),
   (live_channel_frame_behavior wsInitial
      { type := "mystery_event", batch_id := none }).2.2.2.2.2.2 (by decide) (some 3)⟩

/-- C6: whenever a token is in storage, the request interceptor attaches
it as the Authorization header "Bearer " plus token, and a 401 response
clears both the stored token and the cached user profile and redirects to
the login view; any non-401 error leaves storage and location untouched. -/
theorem api_interceptor_behavior (t : String) (u : Option String) (c : RequestConfig)
    (st : Storage) (status : Option Nat) :
    apiRequestInterceptor { token := some t, user := u } c
      = { authorization := some ("Bearer " ++ t) }
    ∧ apiResponseErrorInterceptor st (some 401)
      = { storage := { token := none, user := none }, redirectedTo := some "/login" }
    ∧ (status ≠ some 401 →
        apiResponseErrorInterceptor st status
          = { storage := st, redirectedTo := none }) := by
  refine ⟨rfl, rfl, ?_⟩
  intro h
  simp [apiResponseErrorInterceptor, h]

/-- C6 witness: the theorem applied at the token "tok-1", an arbitrary
config, and the non-401 status 500. -/
theorem api_interceptor_behavior_wit :
    apiRequestInterceptor { token := some "tok-1", user := some "alice" }
        { authorization := none }
      = { authorization := some ("Bearer " ++ "tok-1") }
    ∧ apiResponseErrorInterceptor { token := some "tok-1", user := some "alice" } (some 500)
      = { storage := { token := some "tok-1", user := some "alice" }
        , redirectedTo := none } :=
  ⟨(api_interceptor_behavior "tok-1" (some "alice") { authorization := none }
      { token := some "tok-1", user := some "alice" } (some 500)).1,
   (api_interceptor_behavior "tok-1" (some "alice") { authorization := none }
      { token := some "tok-1", user := some "alice" } (some 500)).2.2 (by decide)⟩

/-- C7: the wrapped page renders the loading placeholder exactly while the
store is loading, renders the access-denied view when loaded without the
required permission, and renders the protected page exactly when the store
is loaded and the required permission is held — so an unauthorized user
never sees the page in any state. -/
theorem withPermission_rendering (s : PermStore) (p : String) :
    (s.loading = true → withPermission s p = Rendered.loadingPlaceholder)
    ∧ (s.loading = false → hasPermission s p = false →
        withPermission s p = Rendered.accessDenied)
    ∧ (withPermission s p = Rendered.page ↔
        s.loading = false ∧ hasPermission s p = true) := by
  refine ⟨?_, ?_, ?_⟩
  · intro h
    simp [withPermission, h]
  · intro h hp
    simp [withPermission, h, hp]
  · rcases hl : s.loading with _ | _
    · rcases hp : hasPermission s p with _ | _
      · simp [withPermission, hl, hp]
      · simp [withPermission, hl, hp]
    · simp [withPermission, hl]

/-- C7 witness: the theorem applied at the loading initial store, at
exampleStore with the denied key manage_users, and at exampleStore with
the granted key view_candidates. -/
theorem withPermission_rendering_wit :
    withPermission initialPermStore "view_candidates" = Rendered.loadingPlaceholder
    ∧ withPermission exampleStore "manage_users" = Rendered.accessDenied
    ∧ withPermission exampleStore "view_candidates" = Rendered.page :=
  ⟨(withPermission_rendering initialPermStore "view_candidates").1 rfl,
   (withPermission_rendering exampleStore "manage_users").2.1 rfl (by decide),
   ((withPermission_rendering exampleStore "view_candidates").2.2).2 ⟨rfl, by decide⟩⟩

/-- C8: hasAnyPermission and hasAllPermissions satisfy the recurrences of
short-circuiting OR and AND of hasPermission over the action list, and on
the capability set with view_candidates true and manage_users false,
hasAnyPermission of the two keys is true while hasAllPermissions is
false. -/
theorem hasAny_hasAll_shortcircuit (s : PermStore) (a : String) (rest : List String) :
    hasAnyPermission s [] = false
    ∧ hasAllPermissions s [] = true
    ∧ hasAnyPermission s (a :: rest) = (hasPermission s a || hasAnyPermission s rest)
    ∧ hasAllPermissions s (a :: rest) = (hasPermission s a && hasAllPermissions s rest)
    ∧ hasAnyPermission exampleStore ["manage_users", "view_candidates"] = true
    ∧ hasAllPermissions exampleStore ["manage_users", "view_candidates"] = false := by
  refine ⟨rfl, rfl, ?_, ?_, by decide, by decide⟩
  · simp [hasAnyPermission, List.any_cons]
  · simp [hasAllPermissions, List.all_cons]

/-- C9: for the empty action list, in every store state, hasAnyPermission
returns false and hasAllPermissions returns true — a gate that requires
all of an empty permission list always grants access. -/
theorem empty_actions_any_false_all_true (s : PermStore) :
    hasAnyPermission s [] = false ∧ hasAllPermissions s [] = true :=
  ⟨rfl, rfl⟩

/-- C10: calling usePermissions outside a PermissionProvider (context
undefined) yields the thrown Error, never any store value; inside a
provider it returns that provider's store. -/
theorem usePermissions_requires_provider :
    usePermissions none
      = Except.error "usePermissions must be used within PermissionProvider"
    ∧ (∀ s : PermStore, usePermissions none ≠ Except.ok s)
    ∧ (∀ s : PermStore, usePermissions (some s) = Except.ok s) := by
  refine ⟨rfl, ?_, ?_⟩
  · intro s h
    exact Except.noConfusion h
  · intro s
    rfl
